import Mathlib

/-!
Shallow embedding of the user-permission checking module of clickvisual
(package `permission`): the strategy registry, the two checker pipelines
(`defaultChecker.Check`, `podTerminalChecker.Check`) and the request
canonicalizer `getCasbinItemsFromReqPermission`.

External collaborators (the casbin policy engine, the root-user lookup and
the domain-lock gate) are passed as explicit function parameters, so that
theorems can quantify over their answers.
-/

namespace Permission

/-- The permission request (`view.ReqPermission`).  Go `int` is modelled as
`Int`; the remaining fields are strings and a string list, as in the source. -/
structure ReqPermission where
  UserId : Int
  ObjectType : String
  ObjectIdx : String
  SubResource : String
  Acts : List String
  DomainType : String
  DomainId : String
deriving DecidableEq, Repr

/-- Outcomes of a check.  `Check` returning `nil` is modelled as `none`
(permitted); a non-nil error is `some` of the corresponding variant. -/
inductive CheckErr where
  | validationError : String → CheckErr
  | domainLockedError : CheckErr
  | permissionDenied : CheckErr
deriving DecidableEq, Repr

/-- Modelled from the spec: the reserved "route" object-type category
(`pmsplugin.PrefixRoute`, not under src/). -/
def PrefixRoute : String := "route"

/-- Modelled from the spec: the "table" object-type category
(`pmsplugin.PrefixTable`, not under src/). -/
def PrefixTable : String := "table"

/-- Modelled from the spec: the fixed "user" subject category
(`pmsplugin.PrefixUser`, not under src/); the spec renders subjects
as `user:<UserId>`. -/
def PrefixUser : String := "user"

/-- Modelled from the spec: the fixed sub-resource marker
(`pmsplugin.PrefixSubRsrc`, not under src/); the spec renders objects
as `table:T1:sub:read`. -/
def PrefixSubRsrc : String := "sub"

/-- Modelled from the spec: the pod-terminal sub-resource tag
(`pmsplugin.AppPodTerminal`, not under src/); the spec selects it via
`Select("table", "pod-terminal")`. -/
def AppPodTerminal : String := "pod-terminal"

/-- Modelled from the spec: the reserved separator of canonical tuples
(the spec scenario shows `user:7` and `table:T1:sub:read`). -/
def CasbinSep : String := ":"

/-- Modelled from the spec: the defined action-separator used to join
the `Acts` of a request; its concrete value is not fixed by the spec. -/
def ActSep : String := ","

/-- Modelled from the spec: the registered set of permitted object-type
prefixes (`pmsplugin.PermittedPrefixMap`, not under src/).  The spec
registers at least the table category. -/
def PermittedPrefixMap : List String := [PrefixTable]

/-- Modelled from the spec: `pmsplugin.Assemble2CasbinStr` (not under src/)
joins its parts with the reserved separator and reports an error when a part
is empty/unset (the spec folds that error into the wildcard domain).  The
pair's second component is the Go error flag; on error the string result is
empty. -/
def Assemble2CasbinStr (parts : List String) : String × Bool :=
  if parts.any (fun p => p = "") then ("", true)
  else (String.intercalate CasbinSep parts, false)

/-- Modelled from the spec: `pmsplugin.JointActs2RuleActStr` (not under src/)
joins all acts with the defined action-separator; an empty act list yields the
empty string (which the canonicalizer replaces by the wildcard). -/
def JointActs2RuleActStr (acts : List String) : String :=
  String.intercalate ActSep acts

/-- `pmsplugin.Convert2InterfaceSlice` applied to the four tuple strings:
builds one candidate rule for `EnforceOneInMany`. -/
def Convert2InterfaceSlice (s o a d : String) : List String := [s, o, a, d]

/-- The validation error message of `getCasbinItemsFromReqPermission`
(spelling kept from the source). -/
def MsgEmptyFields : String :=
  "The UserId, ObjectType, ObjectIdx and SubRersource cannot be empty. "

/-- The invalid-object-type error message of
`getCasbinItemsFromReqPermission`. -/
def MsgInvalidObjectType (t : String) : String :=
  "ObjectType(" ++ t ++ ") is invalid"

/-- The four canonical casbin tuple strings
(`casbinItemsFromReqPermission`). -/
structure CasbinItems where
  ReqSub : String
  ReqObj : String
  ReqAct : String
  ReqDom : String
deriving DecidableEq, Repr

/-- `getCasbinItemsFromReqPermission`, parametric in the assembling function
`asm` (the source calls `pmsplugin.Assemble2CasbinStr`): validates the
request, then builds the tuple.  The error flags of the subject and object
assemblies are discarded (`reqSub, _ :=` in the source); an error flag on the
domain assembly turns the domain into the wildcard. -/
def getCasbinItemsWith (asm : List String → String × Bool) (r : ReqPermission) :
    Except CheckErr CasbinItems :=
  if r.UserId = 0 ∨ r.ObjectType = "" ∨ r.ObjectIdx = "" ∨ r.SubResource = "" then
    Except.error (CheckErr.validationError MsgEmptyFields)
  else if r.ObjectType ∈ PermittedPrefixMap then
    Except.ok
      (CasbinItems.mk
        (asm [PrefixUser, toString r.UserId]).1
        (asm [r.ObjectType, r.ObjectIdx, PrefixSubRsrc, r.SubResource]).1
        (if JointActs2RuleActStr r.Acts = "" then "*" else JointActs2RuleActStr r.Acts)
        (if (asm [r.DomainType, r.DomainId]).2 then "*"
         else (asm [r.DomainType, r.DomainId]).1))
  else
    Except.error (CheckErr.validationError (MsgInvalidObjectType r.ObjectType))

/-- `getCasbinItemsFromReqPermission` as in the source, with the modelled
`Assemble2CasbinStr`. -/
def getCasbinItemsFromReqPermission (r : ReqPermission) : Except CheckErr CasbinItems :=
  getCasbinItemsWith Assemble2CasbinStr r

/-- `isRootUser`: `uid <= 0` is never root; otherwise the external lookup
(`pmsplugin.IsRootWithoutCheckingSysLock`, passed as `isRootLookup`)
decides. -/
def isRootUser (isRootLookup : Int → Bool) (uid : Int) : Bool :=
  if uid ≤ 0 then false else isRootLookup uid

/-- Modelled from the spec: `baseChecker.CheckDomLockIfActWrite` (not under
src/) queries the external domain-lock gate with the request's domain and
action set and fails with `DomainLockedError` exactly when the gate reports
the domain locked for a write-class action set. -/
def CheckDomLockIfActWrite (isLocked : String → String → List String → Bool)
    (r : ReqPermission) : Option CheckErr :=
  if isLocked r.DomainType r.DomainId r.Acts then some CheckErr.domainLockedError
  else none

/-- `defaultChecker.Check`: route bypass, domain-lock gate, root bypass,
canonicalize, then `pmsplugin.EnforceOneInMany` over the single built rule
(the engine is the parameter `enforceAny`, returning the passed boolean and
the Go error flag). -/
def defaultCheck (isRootLookup : Int → Bool)
    (isLocked : String → String → List String → Bool)
    (enforceAny : List (List String) → Bool × Bool)
    (r : ReqPermission) : Option CheckErr :=
  if r.ObjectType = PrefixRoute then none
  else
    match CheckDomLockIfActWrite isLocked r with
    | some e => some e
    | none =>
      if isRootUser isRootLookup r.UserId then none
      else
        match getCasbinItemsFromReqPermission r with
        | Except.error e => some e
        | Except.ok items =>
          let res := enforceAny
            [Convert2InterfaceSlice items.ReqSub items.ReqObj items.ReqAct items.ReqDom]
          if res.1 then none else some CheckErr.permissionDenied

/-- `podTerminalChecker.Check`: domain-lock gate, root bypass, canonicalize,
then a single `pmsplugin.Enforce` call (the engine is the parameter
`enforceOne`). -/
def podTerminalCheck (isRootLookup : Int → Bool)
    (isLocked : String → String → List String → Bool)
    (enforceOne : String → String → String → String → Bool × Bool)
    (r : ReqPermission) : Option CheckErr :=
  match CheckDomLockIfActWrite isLocked r with
  | some e => some e
  | none =>
    if isRootUser isRootLookup r.UserId then none
    else
      match getCasbinItemsFromReqPermission r with
      | Except.error e => some e
      | Except.ok items =>
        let res := enforceOne items.ReqSub items.ReqObj items.ReqAct items.ReqDom
        if res.1 then none else some CheckErr.permissionDenied

/-- The checker variants of the strategy registry. -/
inductive UserPmsChecker where
  | defaultChecker : UserPmsChecker
  | podTerminalChecker : UserPmsChecker
deriving DecidableEq, Repr

/-- The strategy registry `strategies`:
ObjectType -> SubResource -> UserPmsChecker. -/
def strategies : List (String × List (String × UserPmsChecker)) :=
  [(PrefixTable, [(AppPodTerminal, UserPmsChecker.podTerminalChecker)])]

/-- `pms.newUserPmsCheckStrategy`: two-level lookup in `strategies`, falling
back to the default checker when the object type or the sub-resource is not
registered. -/
def newUserPmsCheckStrategy (objType subResource : String) : UserPmsChecker :=
  match strategies.lookup objType with
  | none => UserPmsChecker.defaultChecker
  | some m =>
    match m.lookup subResource with
    | none => UserPmsChecker.defaultChecker
    | some c => c

/-- C1 counterexample: a request with negative UserId (here UserId = -1, so
UserId <= 0) passes validation and is decided by the engine: with a
permitting engine the default checker returns nil, not a ValidationError. -/
theorem C1_counterexample :
    (-1 : Int) ≤ 0 ∧
    defaultCheck (fun _ => false) (fun _ _ _ => false) (fun _ => (true, false))
      (ReqPermission.mk (-1) PrefixTable "T1" "read" ["select"] "" "") = none :=
  ⟨by decide, rfl⟩

/-- C1 (amended): for every request with UserId = 0, whenever the domain-lock
gate does not fire and (for the default checker) the object type is not the
reserved route category, Check returns the ValidationError of the
canonicalizer, regardless of the other fields and of the engine and
root-lookup answers.  A negative UserId is not rejected by validation. -/
theorem C1_amended (isRootLookup : Int → Bool)
    (isLocked : String → String → List String → Bool)
    (enforceAny : List (List String) → Bool × Bool)
    (enforceOne : String → String → String → String → Bool × Bool)
    (r : ReqPermission)
    (hu : r.UserId = 0)
    (hl : isLocked r.DomainType r.DomainId r.Acts = false) :
    (r.ObjectType ≠ PrefixRoute →
      defaultCheck isRootLookup isLocked enforceAny r
        = some (CheckErr.validationError MsgEmptyFields)) ∧
    podTerminalCheck isRootLookup isLocked enforceOne r
      = some (CheckErr.validationError MsgEmptyFields) := by
  have hroot : isRootUser isRootLookup r.UserId = false := by
    simp [isRootUser, hu]
  have hitems : getCasbinItemsFromReqPermission r
      = Except.error (CheckErr.validationError MsgEmptyFields) := by
    simp [getCasbinItemsFromReqPermission, getCasbinItemsWith, hu]
  constructor
  · intro hroute
    simp [defaultCheck, CheckDomLockIfActWrite, hroute, hl, hroot, hitems]
  · simp [podTerminalCheck, CheckDomLockIfActWrite, hl, hroot, hitems]

/-- C1 witness: the amended claim at a concrete request with UserId = 0. -/
theorem C1_witness :
    defaultCheck (fun _ => true) (fun _ _ _ => false) (fun _ => (true, false))
      (ReqPermission.mk 0 PrefixTable "T1" "read" ["select"] "" "")
      = some (CheckErr.validationError MsgEmptyFields) ∧
    podTerminalCheck (fun _ => true) (fun _ _ _ => false) (fun _ _ _ _ => (true, false))
      (ReqPermission.mk 0 PrefixTable "T1" "read" ["select"] "" "")
      = some (CheckErr.validationError MsgEmptyFields) := by
  have h := C1_amended (fun _ => true) (fun _ _ _ => false) (fun _ => (true, false))
    (fun _ _ _ _ => (true, false))
    (ReqPermission.mk 0 PrefixTable "T1" "read" ["select"] "" "") rfl rfl
  exact ⟨h.1 (by decide), h.2⟩

/-- C2 counterexample: a root user (lookup answers true for UserId = 7)
issuing a write in a locked domain receives DomainLockedError from the
default checker, not nil: the domain-lock gate runs before the root
bypass. -/
theorem C2_counterexample :
    isRootUser (fun _ => true) (7 : Int) = true ∧
    defaultCheck (fun _ => true) (fun _ _ _ => true) (fun _ => (true, false))
      (ReqPermission.mk 7 PrefixTable "T1" "read" ["write"] "env" "prod")
      = some CheckErr.domainLockedError :=
  ⟨rfl, rfl⟩

/-- C2 (amended): for every request whose UserId the root lookup resolves to
root, provided the domain-lock gate does not fire, both checkers return nil,
for every engine answer (so the policy engine is not consulted). -/
theorem C2_amended (isRootLookup : Int → Bool)
    (isLocked : String → String → List String → Bool)
    (enforceAny : List (List String) → Bool × Bool)
    (enforceOne : String → String → String → String → Bool × Bool)
    (r : ReqPermission)
    (hroot : isRootUser isRootLookup r.UserId = true)
    (hl : isLocked r.DomainType r.DomainId r.Acts = false) :
    defaultCheck isRootLookup isLocked enforceAny r = none ∧
    podTerminalCheck isRootLookup isLocked enforceOne r = none := by
  constructor
  · by_cases hroute : r.ObjectType = PrefixRoute
    · simp [defaultCheck, hroute]
    · simp [defaultCheck, CheckDomLockIfActWrite, hroute, hl, hroot]
  · simp [podTerminalCheck, CheckDomLockIfActWrite, hl, hroot]

/-- C2 witness: the amended claim at a concrete root request, with an engine
that would deny (and report an error): the result is still nil. -/
theorem C2_witness :
    defaultCheck (fun _ => true) (fun _ _ _ => false) (fun _ => (false, true))
      (ReqPermission.mk 7 PrefixTable "T1" "read" ["select"] "" "") = none ∧
    podTerminalCheck (fun _ => true) (fun _ _ _ => false) (fun _ _ _ _ => (false, true))
      (ReqPermission.mk 7 PrefixTable "T1" "read" ["select"] "" "") = none :=
  C2_amended (fun _ => true) (fun _ _ _ => false) (fun _ => (false, true))
    (fun _ _ _ _ => (false, true))
    (ReqPermission.mk 7 PrefixTable "T1" "read" ["select"] "" "") rfl rfl

/-- C3 counterexample: a route-typed write request in a locked domain (the
gate answers true) is permitted by the default checker: the route bypass runs
before the domain-lock gate, so the result is nil, not DomainLockedError. -/
theorem C3_counterexample :
    (fun _ _ _ => true : String → String → List String → Bool) "env" "prod" ["write"] = true ∧
    defaultCheck (fun _ => false) (fun _ _ _ => true) (fun _ => (false, false))
      (ReqPermission.mk 7 PrefixRoute "r1" "read" ["write"] "env" "prod") = none :=
  ⟨rfl, rfl⟩

/-- C3 (amended): whenever the domain-lock gate reports the request's domain
locked for its action set, the pod-terminal checker returns DomainLockedError
unconditionally, and the default checker returns DomainLockedError provided
the object type is not the reserved route category; in both cases for every
engine answer (so the policy engine is not invoked). -/
theorem C3_amended (isRootLookup : Int → Bool)
    (isLocked : String → String → List String → Bool)
    (enforceAny : List (List String) → Bool × Bool)
    (enforceOne : String → String → String → String → Bool × Bool)
    (r : ReqPermission)
    (hl : isLocked r.DomainType r.DomainId r.Acts = true) :
    (r.ObjectType ≠ PrefixRoute →
      defaultCheck isRootLookup isLocked enforceAny r = some CheckErr.domainLockedError) ∧
    podTerminalCheck isRootLookup isLocked enforceOne r = some CheckErr.domainLockedError := by
  constructor
  · intro hroute
    simp [defaultCheck, CheckDomLockIfActWrite, hroute, hl]
  · simp [podTerminalCheck, CheckDomLockIfActWrite, hl]

/-- C3 witness: the amended claim at a concrete locked write request, with a
permitting engine: the result is still DomainLockedError. -/
theorem C3_witness :
    defaultCheck (fun _ => false) (fun _ _ _ => true) (fun _ => (true, false))
      (ReqPermission.mk 7 PrefixTable "T1" "read" ["write"] "env" "prod")
      = some CheckErr.domainLockedError ∧
    podTerminalCheck (fun _ => false) (fun _ _ _ => true) (fun _ _ _ _ => (true, false))
      (ReqPermission.mk 7 PrefixTable "T1" "read" ["write"] "env" "prod")
      = some CheckErr.domainLockedError := by
  have h := C3_amended (fun _ => false) (fun _ _ _ => true) (fun _ => (true, false))
    (fun _ _ _ _ => (true, false))
    (ReqPermission.mk 7 PrefixTable "T1" "read" ["write"] "env" "prod") rfl
  exact ⟨h.1 (by decide), h.2⟩

/-- C4: strategy selection (a total function, hence never nil) returns the
pod-terminal checker for the registered (table, pod-terminal) pair, and the
default checker whenever the object type is unregistered, or registered with
the sub-resource unregistered under it. -/
theorem C4_strategy_selection :
    newUserPmsCheckStrategy PrefixTable AppPodTerminal = UserPmsChecker.podTerminalChecker ∧
    (∀ t s, strategies.lookup t = none →
      newUserPmsCheckStrategy t s = UserPmsChecker.defaultChecker) ∧
    (∀ t s m, strategies.lookup t = some m → m.lookup s = none →
      newUserPmsCheckStrategy t s = UserPmsChecker.defaultChecker) := by
  refine ⟨rfl, ?_, ?_⟩
  · intro t s h
    simp [newUserPmsCheckStrategy, h]
  · intro t s m h1 h2
    simp [newUserPmsCheckStrategy, h1, h2]

/-- C4 witness: the fallback conjuncts at the spec's concrete pairs. -/
theorem C4_witness :
    newUserPmsCheckStrategy "unknown-type" "x" = UserPmsChecker.defaultChecker ∧
    newUserPmsCheckStrategy PrefixTable "unknown" = UserPmsChecker.defaultChecker :=
  ⟨C4_strategy_selection.2.1 "unknown-type" "x" rfl,
   C4_strategy_selection.2.2 PrefixTable "unknown"
     [(AppPodTerminal, UserPmsChecker.podTerminalChecker)] rfl rfl⟩

/-- C5: canonicalization is deterministic: two requests that agree on every
field produce the same canonical tuple result. -/
theorem C5_canonicalization_deterministic (r1 r2 : ReqPermission)
    (h1 : r1.UserId = r2.UserId) (h2 : r1.ObjectType = r2.ObjectType)
    (h3 : r1.ObjectIdx = r2.ObjectIdx) (h4 : r1.SubResource = r2.SubResource)
    (h5 : r1.Acts = r2.Acts) (h6 : r1.DomainType = r2.DomainType)
    (h7 : r1.DomainId = r2.DomainId) :
    getCasbinItemsFromReqPermission r1 = getCasbinItemsFromReqPermission r2 := by
  have h : r1 = r2 := by
    cases r1
    cases r2
    simp_all
  rw [h]

/-- C5 witness: determinism at a concrete pair of equal requests. -/
theorem C5_witness :
    getCasbinItemsFromReqPermission
      (ReqPermission.mk 7 PrefixTable "T1" "read" ["select"] "env" "prod")
      = getCasbinItemsFromReqPermission
      (ReqPermission.mk 7 PrefixTable "T1" "read" ["select"] "env" "prod") :=
  C5_canonicalization_deterministic _ _ rfl rfl rfl rfl rfl rfl rfl

/-- C6: in the enforcement-interpretation step of both checkers (request past
the route bypass, the lock gate, the root bypass and validation), the verdict
is the engine's boolean alone: false gives PermissionDeniedError and true
gives nil, whether or not the engine also reported an error. -/
theorem C6_interpret_engine_boolean (isRootLookup : Int → Bool)
    (isLocked : String → String → List String → Bool)
    (b e : Bool) (r : ReqPermission) (items : CasbinItems)
    (hroute : r.ObjectType ≠ PrefixRoute)
    (hl : isLocked r.DomainType r.DomainId r.Acts = false)
    (hroot : isRootUser isRootLookup r.UserId = false)
    (hitems : getCasbinItemsFromReqPermission r = Except.ok items) :
    defaultCheck isRootLookup isLocked (fun _ => (b, e)) r
      = (if b then none else some CheckErr.permissionDenied) ∧
    podTerminalCheck isRootLookup isLocked (fun _ _ _ _ => (b, e)) r
      = (if b then none else some CheckErr.permissionDenied) := by
  constructor
  · simp [defaultCheck, CheckDomLockIfActWrite, hroute, hl, hroot, hitems]
  · simp [podTerminalCheck, CheckDomLockIfActWrite, hl, hroot, hitems]

/-- C6 witness: a concrete valid request with an engine answering
(false, error): both checkers deny with PermissionDeniedError. -/
theorem C6_witness :
    defaultCheck (fun _ => false) (fun _ _ _ => false) (fun _ => (false, true))
      (ReqPermission.mk 7 PrefixTable "T1" "read" ["select"] "" "")
      = some CheckErr.permissionDenied ∧
    podTerminalCheck (fun _ => false) (fun _ _ _ => false) (fun _ _ _ _ => (false, true))
      (ReqPermission.mk 7 PrefixTable "T1" "read" ["select"] "" "")
      = some CheckErr.permissionDenied := by
  have h := C6_interpret_engine_boolean (fun _ => false) (fun _ _ _ => false) false true
    (ReqPermission.mk 7 PrefixTable "T1" "read" ["select"] "" "")
    (CasbinItems.mk "user:7" "table:T1:sub:read" "select" "*")
    (by decide) rfl rfl rfl
  exact h

/-- C7: for every request that canonicalizes successfully, an empty act list
renders the Action as the wildcard, and an empty/unset DomainType or DomainId
renders the Domain as the wildcard. -/
theorem C7_wildcards (r : ReqPermission) (items : CasbinItems)
    (hitems : getCasbinItemsFromReqPermission r = Except.ok items) :
    (r.Acts = [] → items.ReqAct = "*") ∧
    ((r.DomainType = "" ∨ r.DomainId = "") → items.ReqDom = "*") := by
  unfold getCasbinItemsFromReqPermission getCasbinItemsWith at hitems
  split at hitems
  · simp at hitems
  split at hitems
  · rw [Except.ok.injEq] at hitems
    subst hitems
    constructor
    · intro ha
      rw [ha]
      rfl
    · intro hd
      rcases hd with hd | hd <;> simp [Assemble2CasbinStr, hd]
  · simp at hitems

/-- C7 witness: the wildcard conclusions at a concrete request with empty
acts and empty DomainType. -/
theorem C7_witness :
    (CasbinItems.mk "user:7" "table:T1:sub:read" "*" "*").ReqAct = "*" ∧
    (CasbinItems.mk "user:7" "table:T1:sub:read" "*" "*").ReqDom = "*" :=
  ⟨(C7_wildcards (ReqPermission.mk 7 PrefixTable "T1" "read" [] "" "x")
      (CasbinItems.mk "user:7" "table:T1:sub:read" "*" "*") rfl).1 rfl,
   (C7_wildcards (ReqPermission.mk 7 PrefixTable "T1" "read" [] "" "x")
      (CasbinItems.mk "user:7" "table:T1:sub:read" "*" "*") rfl).2 (Or.inl rfl)⟩

/-- C8: for every request whose object type is the reserved route category,
the default checker permits unconditionally: nil for all other fields and
for all root-lookup, lock-gate and engine answers. -/
theorem C8_route_bypass (isRootLookup : Int → Bool)
    (isLocked : String → String → List String → Bool)
    (enforceAny : List (List String) → Bool × Bool)
    (r : ReqPermission) (h : r.ObjectType = PrefixRoute) :
    defaultCheck isRootLookup isLocked enforceAny r = none := by
  simp [defaultCheck, h]

/-- C8 witness: a route request with adversarial collaborators (locked
domain, denying engine, invalid fields) is still permitted. -/
theorem C8_witness :
    defaultCheck (fun _ => true) (fun _ _ _ => true) (fun _ => (false, true))
      (ReqPermission.mk 0 PrefixRoute "" "" ["write"] "env" "prod") = none :=
  C8_route_bypass (fun _ => true) (fun _ _ _ => true) (fun _ => (false, true))
    (ReqPermission.mk 0 PrefixRoute "" "" ["write"] "env" "prod") rfl

/-- C9: on every request whose object type is not the reserved route
category, the two checkers agree, provided the any-of engine adapter on the
singleton rule list agrees with the single-tuple engine call. -/
theorem C9_checkers_agree (isRootLookup : Int → Bool)
    (isLocked : String → String → List String → Bool)
    (enforceOne : String → String → String → String → Bool × Bool)
    (enforceAny : List (List String) → Bool × Bool)
    (r : ReqPermission)
    (hroute : r.ObjectType ≠ PrefixRoute)
    (hagree : ∀ s o a d, enforceAny [Convert2InterfaceSlice s o a d] = enforceOne s o a d) :
    defaultCheck isRootLookup isLocked enforceAny r
      = podTerminalCheck isRootLookup isLocked enforceOne r := by
  unfold defaultCheck podTerminalCheck
  rw [if_neg hroute]
  cases CheckDomLockIfActWrite isLocked r with
  | some e => rfl
  | none =>
    cases hroot : isRootUser isRootLookup r.UserId with
    | true => simp
    | false =>
      simp only [Bool.false_eq_true, if_false]
      cases hitems : getCasbinItemsFromReqPermission r with
      | error e => rfl
      | ok items => simp [hagree]

/-- C9 witness: agreement at a concrete non-route request with agreeing
engine adapters. -/
theorem C9_witness :
    defaultCheck (fun _ => false) (fun _ _ _ => false) (fun _ => (true, false))
      (ReqPermission.mk 7 PrefixTable "T1" "read" ["select"] "" "")
      = podTerminalCheck (fun _ => false) (fun _ _ _ => false) (fun _ _ _ _ => (true, false))
      (ReqPermission.mk 7 PrefixTable "T1" "read" ["select"] "" "") :=
  C9_checkers_agree (fun _ => false) (fun _ _ _ => false) (fun _ _ _ _ => (true, false))
    (fun _ => (true, false))
    (ReqPermission.mk 7 PrefixTable "T1" "read" ["select"] "" "")
    (by decide) (fun _ _ _ _ => rfl)

/-- C10: canonicalization fails only on its two validation conditions: for
every assembling function, a request passing both validation checks yields a
success whose Subject and Object ignore the assembler's error flags, and
whose Domain is the wildcard exactly when the assembler reports an error on
the domain pair. -/
theorem C10_canonicalization_error_policy (asm : List String → String × Bool)
    (r : ReqPermission)
    (h1 : ¬ (r.UserId = 0 ∨ r.ObjectType = "" ∨ r.ObjectIdx = "" ∨ r.SubResource = ""))
    (h2 : r.ObjectType ∈ PermittedPrefixMap) :
    getCasbinItemsWith asm r = Except.ok
      (CasbinItems.mk
        (asm [PrefixUser, toString r.UserId]).1
        (asm [r.ObjectType, r.ObjectIdx, PrefixSubRsrc, r.SubResource]).1
        (if JointActs2RuleActStr r.Acts = "" then "*" else JointActs2RuleActStr r.Acts)
        (if (asm [r.DomainType, r.DomainId]).2 then "*"
         else (asm [r.DomainType, r.DomainId]).1)) := by
  unfold getCasbinItemsWith
  rw [if_neg h1, if_pos h2]

/-- C10 witness: an assembler that always reports an error changes neither
the success of canonicalization nor the Subject and Object strings it
produced; the Domain falls back to the wildcard. -/
theorem C10_witness :
    getCasbinItemsWith (fun _ => ("X", true))
      (ReqPermission.mk 7 PrefixTable "T1" "read" ["select"] "env" "prod")
      = Except.ok (CasbinItems.mk "X" "X" "select" "*") := by
  rw [C10_canonicalization_error_policy (fun _ => ("X", true))
    (ReqPermission.mk 7 PrefixTable "T1" "read" ["select"] "env" "prod")
    (by decide) (by decide)]
  rfl

end Permission
